import Mathlib

/-!
Verification development for the streaming tool-call orchestration engine of
the gpt-oss-chat repository.  The definitions below are a shallow embedding of
the Python sources `src/api_call.py` (run_chat_loop and its
append_to_chat_history), `src/sheets_agent.py` (run_agent_turn),
`src/utils/prompt.py` (append_to_chat_history) and `src/sheets/tools.py`
(execute_sheets_tool and the tool helpers).  External collaborators (the
OpenAI transport, pandas-backed analyzers, the user prompt) are modelled as
parameters; the Python standard-library functions used by the engine
(json.loads, json.dumps, str.startswith, str.replace, str.strip, min) are
modelled by executable Lean functions on a JSON value type.
-/

/-- JSON values, the image of Python's `json.loads` on the subset the engine
exchanges with its tools (objects, arrays, strings, integers, booleans,
null). -/
inductive Json where
  | null
  | bool (b : Bool)
  | num (n : Int)
  | str (s : String)
  | arr (elems : List Json)
  | obj (fields : List (String × Json))
  deriving Repr

/-- Whitespace skipped by the JSON reader (space, newline, tab, carriage
return). -/
def jsonWs (c : Char) : Bool :=
  c = ' ' || c = '\n' || c = '\t' || c = '\r'

/-- Drop leading JSON whitespace. -/
def skipWs (cs : List Char) : List Char :=
  cs.dropWhile jsonWs

/-- Translate a character that appeared after a backslash in a JSON string
literal. -/
def escChar (c : Char) : Char :=
  if c = 'n' then '\n' else if c = 't' then '\t' else if c = 'r' then '\r' else c

/-- Read the body of a JSON string literal (the opening quote has already been
consumed); returns the decoded string and the input after the closing
quote. -/
def parseStringBody : List Char → Option (String × List Char)
  | [] => none
  | c :: cs =>
    if c = '"' then some ("", cs)
    else if c = '\\' then
      match cs with
      | [] => none
      | e :: cs2 =>
        match parseStringBody cs2 with
        | some (s, rest) => some ((escChar e).toString ++ s, rest)
        | none => none
    else
      match parseStringBody cs with
      | some (s, rest) => some (c.toString ++ s, rest)
      | none => none

/-- Take a maximal run of decimal digits. -/
def takeDigits : List Char → List Char × List Char
  | [] => ([], [])
  | c :: cs =>
    if c.isDigit then
      let (ds, rest) := takeDigits cs
      (c :: ds, rest)
    else ([], c :: cs)

/-- Numeric value of a digit run. -/
def digitsToNat (ds : List Char) : Nat :=
  ds.foldl (fun acc c => acc * 10 + (c.toNat - 48)) 0

/-- Read a JSON integer literal (optional leading minus). -/
def parseNumber : List Char → Option (Json × List Char)
  | '-' :: cs =>
    let (ds, rest) := takeDigits cs
    if ds.isEmpty then none else some (.num (-(Int.ofNat (digitsToNat ds))), rest)
  | cs =>
    let (ds, rest) := takeDigits cs
    if ds.isEmpty then none else some (.num (Int.ofNat (digitsToNat ds)), rest)

mutual

/-- Read one JSON value; `fuel` bounds the nesting and is always supplied
larger than the input length. -/
def parseValue : Nat → List Char → Option (Json × List Char)
  | 0, _ => none
  | fuel + 1, input =>
    match skipWs input with
    | [] => none
    | c :: cs =>
      if c = '"' then
        match parseStringBody cs with
        | some (s, rest) => some (.str s, rest)
        | none => none
      else if c = '{' then
        match skipWs cs with
        | '}' :: rest => some (.obj [], rest)
        | cs2 =>
          match parseMembers fuel cs2 with
          | some (ms, rest) => some (.obj ms, rest)
          | none => none
      else if c = '[' then
        match skipWs cs with
        | ']' :: rest => some (.arr [], rest)
        | cs2 =>
          match parseElems fuel cs2 with
          | some (es, rest) => some (.arr es, rest)
          | none => none
      else if c = 't' then
        match cs with
        | 'r' :: 'u' :: 'e' :: rest => some (.bool true, rest)
        | _ => none
      else if c = 'f' then
        match cs with
        | 'a' :: 'l' :: 's' :: 'e' :: rest => some (.bool false, rest)
        | _ => none
      else if c = 'n' then
        match cs with
        | 'u' :: 'l' :: 'l' :: rest => some (.null, rest)
        | _ => none
      else if c = '-' || c.isDigit then
        parseNumber (c :: cs)
      else none

/-- Read the members of a JSON object after its opening brace (at least one
member present). -/
def parseMembers : Nat → List Char → Option (List (String × Json) × List Char)
  | 0, _ => none
  | fuel + 1, input =>
    match skipWs input with
    | '"' :: cs =>
      match parseStringBody cs with
      | some (k, rest) =>
        match skipWs rest with
        | ':' :: rest2 =>
          match parseValue fuel rest2 with
          | some (v, rest3) =>
            match skipWs rest3 with
            | ',' :: rest4 =>
              match parseMembers fuel rest4 with
              | some (ms, rest5) => some ((k, v) :: ms, rest5)
              | none => none
            | '}' :: rest4 => some ([(k, v)], rest4)
            | _ => none
          | none => none
        | _ => none
      | none => none
    | _ => none

/-- Read the elements of a JSON array after its opening bracket (at least one
element present). -/
def parseElems : Nat → List Char → Option (List Json × List Char)
  | 0, _ => none
  | fuel + 1, input =>
    match parseValue fuel input with
    | some (v, rest) =>
      match skipWs rest with
      | ',' :: rest2 =>
        match parseElems fuel rest2 with
        | some (es, rest3) => some (v :: es, rest3)
        | none => none
      | ']' :: rest2 => some ([v], rest2)
      | _ => none
    | none => none

end

/-- Model of Python's `json.loads`: `none` corresponds to a raised
`json.JSONDecodeError`. -/
def Json.parse (s : String) : Option Json :=
  match parseValue (s.length + 1) s.data with
  | some (j, rest) => if skipWs rest = [] then some j else none
  | none => none

/-- Escape a string for JSON serialisation. -/
def jsonEscape (s : String) : String :=
  s.data.foldl
    (fun acc c =>
      acc ++ (if c = '"' then "\\\"" else if c = '\\' then "\\\\"
              else if c = '\n' then "\\n" else c.toString)) ""

mutual

/-- Model of Python's `json.dumps` with its default separators. -/
def Json.dumps : Json → String
  | .null => "null"
  | .bool true => "true"
  | .bool false => "false"
  | .num n => toString n
  | .str s => "\"" ++ jsonEscape s ++ "\""
  | .arr es => "[" ++ dumpsElems es ++ "]"
  | .obj ms => "\x7b" ++ dumpsMembers ms ++ "\x7d"

/-- Comma-separated serialisation of array elements. -/
def dumpsElems : List Json → String
  | [] => ""
  | [x] => Json.dumps x
  | x :: y :: xs => Json.dumps x ++ ", " ++ dumpsElems (y :: xs)

/-- Comma-separated serialisation of object members. -/
def dumpsMembers : List (String × Json) → String
  | [] => ""
  | [(k, v)] => "\"" ++ jsonEscape k ++ "\": " ++ Json.dumps v
  | (k, v) :: m :: ms =>
      "\"" ++ jsonEscape k ++ "\": " ++ Json.dumps v ++ ", " ++ dumpsMembers (m :: ms)

end

/-- Python truthiness on JSON values (`if not x`). -/
def Json.truthy : Json → Bool
  | .null => false
  | .bool b => b
  | .num n => n ≠ 0
  | .str s => s ≠ ""
  | .arr es => !es.isEmpty
  | .obj ms => !ms.isEmpty

/-- `kwargs.get(key)` on a keyword-argument dictionary (first binding wins, as
in a Python dict built from unique keys). -/
def kwGet (kwargs : Json) (key : String) : Option Json :=
  match kwargs with
  | .obj ms => (ms.find? (fun kv => kv.1 = key)).map (·.2)
  | _ => none

/-- `kwargs.get(key)` where an absent key yields Python's `None`. -/
def kwGetD (kwargs : Json) (key : String) : Json :=
  (kwGet kwargs key).getD .null

/-- `kwargs.get(key, default)`. -/
def kwGetOr (kwargs : Json) (key : String) (d : Json) : Json :=
  (kwGet kwargs key).getD d

/-- Truthiness of `kwargs.get(key)` (missing key is `None`, hence falsy). -/
def kwTruthy (kwargs : Json) (key : String) : Bool :=
  match kwGet kwargs key with
  | some v => v.truthy
  | none => false

/-- Python `str()` applied to a JSON value (identity on strings; other values
are rendered, which the engine never relies on). -/
def pyStr : Json → String
  | .str s => s
  | j => Json.dumps j

/-- Boolean list-prefix test used to model Python's `str.startswith`. -/
def listIsPrefixOf : List Char → List Char → Bool
  | [], _ => true
  | _ :: _, [] => false
  | p :: ps, c :: cs => p = c && listIsPrefixOf ps cs

/-- Model of Python's `str.startswith`. -/
def pyStartsWith (s pre : String) : Bool :=
  listIsPrefixOf pre.data s.data

/-- Worker for `pyReplace`; the fuel starts at the input length and bounds the
number of steps, each of which consumes at least one character. -/
def listReplaceGo (pat rep : List Char) : Nat → List Char → List Char
  | _, [] => []
  | 0, s => s
  | fuel + 1, c :: cs =>
    if !pat.isEmpty && listIsPrefixOf pat (c :: cs) then
      rep ++ listReplaceGo pat rep fuel ((c :: cs).drop pat.length)
    else
      c :: listReplaceGo pat rep fuel cs

/-- Model of Python's `str.replace` (replace every non-overlapping occurrence,
left to right; an empty pattern is left untouched, a case the engine never
exercises). -/
def pyReplace (s pat rep : String) : String :=
  ⟨listReplaceGo pat.data rep.data s.data.length s.data⟩

/-- Model of Python's `str.strip` (drop leading and trailing whitespace). -/
def pyStrip (s : String) : String :=
  ⟨((s.data.dropWhile jsonWs).reverse.dropWhile jsonWs).reverse⟩

/-!
## Stream fragments and the two accumulators

`src/api_call.py` lines 216-231 scan the stream for a tool call, breaking at
the first content delta; `src/sheets_agent.py` lines 267-281 drain the whole
stream.  An event models `event.choices[0].delta`: an optional first tool-call
entry and an optional content delta.
-/

/-- `delta.tool_calls[0]`: optional function name, optional call id, and an
arguments substring (possibly empty). -/
structure ToolCallDelta where
  name : Option String
  id : Option String
  arguments : String
  deriving Repr, DecidableEq

/-- One streamed event (`event.choices[0].delta`). -/
structure StreamEvent where
  toolCalls : Option ToolCallDelta
  content : Option String
  deriving Repr, DecidableEq

/-- A pure tool-call event. -/
def toolEvent (name : Option String) (id : Option String) (arguments : String) : StreamEvent :=
  { toolCalls := some { name := name, id := id, arguments := arguments }, content := none }

/-- A pure content event. -/
def contentEvent (c : String) : StreamEvent :=
  { toolCalls := none, content := some c }

/-- Accumulator state of the stream loop in `run_agent_turn`
(`src/sheets_agent.py` lines 268-271). -/
structure AgentAccum where
  toolArgs : String
  toolName : Option String
  toolId : Option String
  responseContent : String
  deriving Repr, DecidableEq

/-- Initial accumulator state (`tool_args = ''`, `tool_name = None`,
`tool_id = None`, `response_content = ''`). -/
def agentInit : AgentAccum :=
  { toolArgs := "", toolName := none, toolId := none, responseContent := "" }

/-- One iteration of the stream loop in `run_agent_turn`
(`src/sheets_agent.py` lines 273-281): a name delta overwrites `tool_name` and
`tool_id`, every tool-call delta appends its argument characters, and every
content delta appends to `response_content`. -/
def agentStep (acc : AgentAccum) (e : StreamEvent) : AgentAccum :=
  let acc1 :=
    match e.toolCalls with
    | some tc =>
      let acc0 :=
        match tc.name with
        | some n => { acc with toolName := some n, toolId := tc.id }
        | none => acc
      { acc0 with toolArgs := acc0.toolArgs ++ tc.arguments }
    | none => acc
  match e.content with
  | some c => { acc1 with responseContent := acc1.responseContent ++ c }
  | none => acc1

/-- Drain a whole stream as `run_agent_turn` does. -/
def agentAccumulate (events : List StreamEvent) : AgentAccum :=
  events.foldl agentStep agentInit

/-- Accumulator state of the tool-scan loop in `run_chat_loop`
(`src/api_call.py` lines 217-221).  The raw event stored in
`assistant_message_with_tool_call` is never read afterwards and is not
modelled. -/
structure ChatScan where
  toolArgs : String
  toolName : Option String
  toolId : Option String
  dangling : String
  deriving Repr, DecidableEq

/-- Initial scan state. -/
def chatScanInit : ChatScan :=
  { toolArgs := "", toolName := none, toolId := none, dangling := "" }

/-- Tool-call part of one scan iteration (`src/api_call.py` lines 223-228). -/
def chatToolStep (st : ChatScan) (e : StreamEvent) : ChatScan :=
  match e.toolCalls with
  | some tc =>
    let st0 :=
      match tc.name with
      | some n => { st with toolName := some n, toolId := tc.id }
      | none => st
    { st0 with toolArgs := st0.toolArgs ++ tc.arguments }
  | none => st

/-- The tool-scan loop of `run_chat_loop` (`src/api_call.py` lines 222-231):
process tool-call deltas, and on the first content delta record it in
`dangling_stream_content` and break, returning the unconsumed remainder of the
stream. -/
def chatScan : ChatScan → List StreamEvent → ChatScan × List StreamEvent
  | st, [] => (st, [])
  | st, e :: rest =>
    let st1 := chatToolStep st e
    match e.content with
    | some c => ({ st1 with dangling := c }, rest)
    | none => chatScan st1 rest

/-- Concatenation of the content deltas of a stream, as collected by the
final-response loops (`src/api_call.py` lines 306-311). -/
def concatContents (events : List StreamEvent) : String :=
  events.foldl
    (fun acc e => match e.content with | some c => acc ++ c | none => acc) ""

/-!
## Conversation log

`append_to_chat_history` is defined identically in `src/utils/prompt.py`
lines 62-90 and `src/api_call.py` lines 75-103.
-/

/-- The single element of the `tool_calls` list attached to an assistant
message that carries a tool call. -/
structure ToolCallRecord where
  id : Option String
  name : Option String
  arguments : String
  deriving Repr, DecidableEq

/-- One chat message dictionary. -/
structure Message where
  role : String
  content : String
  tool_call_id : Option String
  tool_calls : Option ToolCallRecord
  deriving Repr, DecidableEq

/-- `append_to_chat_history` (`src/utils/prompt.py` lines 62-90, identical in
`src/api_call.py`): with `tool_identifier` set it appends an assistant-style
message carrying a `tool_calls` entry; otherwise a message with a
`tool_call_id` key when one is given, else a plain role/content message.  No
validation of any kind is performed. -/
def append_to_chat_history (role : String) (content : String)
    (chat_history : List Message) (tool_call_id : Option String)
    (tool_identifier : Bool) (tool_name : Option String) (tool_args : String) :
    List Message :=
  if tool_identifier then
    chat_history ++
      [{ role := role, content := content, tool_call_id := none,
         tool_calls := some { id := tool_call_id, name := tool_name, arguments := tool_args } }]
  else
    match tool_call_id with
    | some tcid =>
      chat_history ++
        [{ role := role, content := content, tool_call_id := some tcid, tool_calls := none }]
    | none =>
      chat_history ++
        [{ role := role, content := content, tool_call_id := none, tool_calls := none }]

/-- The common positional call `append_to_chat_history(role, content, hist)`. -/
def appendPlain (role : String) (content : String) (hist : List Message) : List Message :=
  append_to_chat_history role content hist none false none ""

/-!
## Sheets tool dispatch (`src/sheets/tools.py`)

The per-tool helper bodies call pandas-backed collaborators (reader, analyzer,
connection finder, summarizer); those collaborators are modelled as functions
of a `SheetsEnv` that either return a string or raise an exception with a
message (`PyResult`).  The dispatch logic, argument checks, the
connection-finder presence check, the feedback marker, and the
exception-to-text boundary are translated from `execute_sheets_tool`
(lines 193-261) and the helpers.
-/

/-- Outcome of a Python call: a returned value or a raised exception carrying
`str(e)`. -/
inductive PyResult (α : Type) where
  | ok (val : α)
  | exn (msg : String)
  deriving Repr, DecidableEq

/-- The external collaborators consulted by the tool helpers, plus whether the
module-level context has a reader and a connection finder.  Each field stands
for the body of one `_tool_*` helper past the checks that are source code. -/
structure SheetsEnv where
  readerPresent : Bool
  connectionFinderPresent : Bool
  listSheets : PyResult String
  analyzeHeaders : Json → PyResult String
  analyzeColumn : Json → Json → PyResult String
  sampleData : Json → Json → PyResult String
  findConnections : PyResult String
  assessQuality : Json → PyResult String
  generateSummary : Json → PyResult String

/-- `_tool_request_user_feedback` (`src/sheets/tools.py` lines 462-464):
returns the marker string followed by the question; executes no business
logic. -/
def tool_request_user_feedback (question : String) : String :=
  "[USER_FEEDBACK_REQUESTED] " ++ question

/-- The marker tested by `run_agent_turn` (`result.startswith(...)`). -/
def feedbackMarker : String :=
  "[USER_FEEDBACK_REQUESTED]"

/-- The body of the `try` block of `execute_sheets_tool`
(`src/sheets/tools.py` lines 215-258): name dispatch, required-argument
checks, and the unknown-tool branch.  `min(n_samples, 20)` on a non-number
raises, as Python's `min` would. -/
def dispatchSheetsTool (env : SheetsEnv) (tool_name : String) (kwargs : Json) :
    PyResult String :=
  if tool_name = "list_sheets" then
    env.listSheets
  else if tool_name = "analyze_headers" then
    if !kwTruthy kwargs "sheet_name" then .ok "Error: sheet_name is required"
    else env.analyzeHeaders (kwGetD kwargs "sheet_name")
  else if tool_name = "analyze_column" then
    if !kwTruthy kwargs "sheet_name" || !kwTruthy kwargs "column_name" then
      .ok "Error: sheet_name and column_name are required"
    else env.analyzeColumn (kwGetD kwargs "sheet_name") (kwGetD kwargs "column_name")
  else if tool_name = "sample_data" then
    if !kwTruthy kwargs "sheet_name" then .ok "Error: sheet_name is required"
    else
      match kwGetOr kwargs "n_samples" (.num 5) with
      | .num m => env.sampleData (kwGetD kwargs "sheet_name") (.num (min m 20))
      | _ => .exn "unsupported operand for min"
  else if tool_name = "find_connections" then
    if env.connectionFinderPresent then env.findConnections
    else .ok "Error: Connection finder not available"
  else if tool_name = "assess_quality" then
    if !kwTruthy kwargs "sheet_name" then .ok "Error: sheet_name is required"
    else env.assessQuality (kwGetD kwargs "sheet_name")
  else if tool_name = "generate_summary" then
    env.generateSummary (kwGetOr kwargs "format" (.str "both"))
  else if tool_name = "request_user_feedback" then
    if !kwTruthy kwargs "question" then .ok "Error: question is required"
    else .ok (tool_request_user_feedback (pyStr (kwGetD kwargs "question")))
  else .ok ("Error: Unknown tool: " ++ tool_name)

/-- `execute_sheets_tool` (`src/sheets/tools.py` lines 193-261): context
check, then the dispatch wrapped in the `try`/`except` boundary that converts
any exception into the textual result `"Error executing <name>: <message>"`. -/
def execute_sheets_tool (env : SheetsEnv) (tool_name : String) (kwargs : Json) :
    String :=
  if !env.readerPresent then
    "Error: Sheets context not initialized. Please load a file first."
  else
    match dispatchSheetsTool env tool_name kwargs with
    | .ok s => s
    | .exn m => "Error executing " ++ tool_name ++ ": " ++ m

/-!
## The agent orchestration loop (`src/sheets_agent.py`, `run_agent_turn`)

The transport is an oracle mapping the index of a create call to either
`none` (the call raised `APIError`) or the list of streamed events.  The
`Prompt.ask` answer to a feedback question is an external function of the
displayed question.  Every create call is issued with `tools=sheets_tools,
tool_choice='auto'`, recorded as `toolsEnabled := true` in the submission
trace.
-/

/-- `json.loads(tool_args) if tool_args else {}` with `JSONDecodeError`
replaced by `{}` (`src/sheets_agent.py` lines 298-301). -/
def agentToolKwargs (tool_args : String) : Json :=
  if tool_args = "" then .obj []
  else
    match Json.parse tool_args with
    | some j => j
    | none => .obj []

/-- Result of processing one drained stream in `run_agent_turn`: either the
turn ends with (at most) a final assistant message, or a tool round completed
and appended its two messages. -/
inductive AgentRoundResult where
  | finalAnswer (hist : List Message)
  | dispatched (hist : List Message)
  deriving Repr, DecidableEq

/-- The body of the `while` loop of `run_agent_turn` after a successful
create call (`src/sheets_agent.py` lines 267-342): drain the stream; with no
tool name return the (possibly extended) history; otherwise parse the
arguments leniently, execute the tool, run the feedback interception, and
append the assistant tool-call message (empty content) followed by the tool
message keyed by the captured id. -/
def agentRound (env : SheetsEnv) (fb : String → String)
    (events : List StreamEvent) (hist : List Message) : AgentRoundResult :=
  let acc := agentAccumulate events
  match acc.toolName with
  | none =>
    .finalAnswer
      (if acc.responseContent ≠ "" then appendPlain "assistant" acc.responseContent hist
       else hist)
  | some name =>
    let kwargs := agentToolKwargs acc.toolArgs
    let result := execute_sheets_tool env name kwargs
    let result1 :=
      if pyStartsWith result feedbackMarker then
        "User response: " ++ fb (pyStrip (pyReplace result feedbackMarker ""))
      else result
    let hist1 :=
      append_to_chat_history "assistant" "" hist acc.toolId true (some name)
        (Json.dumps kwargs)
    let hist2 := append_to_chat_history "tool" result1 hist1 acc.toolId false none ""
    .dispatched hist2

/-- What one create call looked like: whether the tool manifest was attached
(always, in this code) and how the round ended. -/
inductive RoundOutcome where
  | apiError
  | finalAnswer
  | dispatched
  deriving Repr, DecidableEq

/-- Trace record of one Submitting transition. -/
structure SubmissionRecord where
  toolsEnabled : Bool
  outcome : RoundOutcome
  deriving Repr, DecidableEq

/-- The `while tool_call_count < max_tool_calls` loop of `run_agent_turn`
(`src/sheets_agent.py` lines 256-354), with `fuel = max_tool_calls -
tool_call_count` as the recursion measure.  `subIdx` numbers the create
calls; an `APIError` returns the history and count unchanged; a tool round
increments the count and loops. -/
def run_agent_turn_go (env : SheetsEnv) (oracle : Nat → Option (List StreamEvent))
    (fb : String → String) :
    Nat → Nat → Nat → List Message → List SubmissionRecord →
    List Message × Nat × List SubmissionRecord
  | 0, _, count, hist, trace => (hist, count, trace)
  | fuel + 1, subIdx, count, hist, trace =>
    match oracle subIdx with
    | none => (hist, count, trace ++ [{ toolsEnabled := true, outcome := .apiError }])
    | some events =>
      match agentRound env fb events hist with
      | .finalAnswer hist1 =>
        (hist1, count, trace ++ [{ toolsEnabled := true, outcome := .finalAnswer }])
      | .dispatched hist2 =>
        run_agent_turn_go env oracle fb fuel (subIdx + 1) (count + 1) hist2
          (trace ++ [{ toolsEnabled := true, outcome := .dispatched }])

/-- Result of one agent turn: final chat history, final `tool_call_count`,
and the trace of Submitting transitions. -/
structure AgentTurnResult where
  history : List Message
  toolCallCount : Nat
  submissions : List SubmissionRecord
  deriving Repr, DecidableEq

/-- `run_agent_turn(chat_history, max_tool_calls)`
(`src/sheets_agent.py` lines 252-354). -/
def run_agent_turn (env : SheetsEnv) (oracle : Nat → Option (List StreamEvent))
    (fb : String → String) (chat_history : List Message) (max_tool_calls : Nat) :
    AgentTurnResult :=
  let r := run_agent_turn_go env oracle fb max_tool_calls 0 0 chat_history []
  { history := r.1, toolCallCount := r.2.1, submissions := r.2.2 }

/-!
## One round of `run_chat_loop` (`src/api_call.py` lines 196-325)

Modelled from the append of the user message onward (the web-search/RAG
context enrichment above line 196 only rewrites `user_input`).  The oracle
maps create-call index (0 = first submission, 1 = the post-tool submission)
to `none` for a raised `APIError` or the streamed events.  The `search_web`
handler is the external collaborator `searchWeb`.  Exceptions other than the
`APIError` of the first create call are caught by the generic
`except Exception` of the surrounding `while` body, which prints and
continues with the history as it stands; the first create call's `APIError`
is caught at lines 211-214, which pops the just-appended user message.
-/

/-- The external `search_web` tool of `src/tools.py`. -/
structure ChatEnv where
  searchWeb : Json → PyResult String

/-- How a chat round ended. -/
inductive ChatRoundStatus where
  | completed
  | apiErrorRolledBack
  | abortedException (msg : String)
  deriving Repr, DecidableEq

/-- Result of one chat round: the message log, the display buffer fed to the
live Markdown view, and how the round ended. -/
structure ChatRoundResult where
  history : List Message
  buffer : String
  status : ChatRoundStatus
  deriving Repr, DecidableEq

/-- One iteration of the `while` loop of `run_chat_loop` for a non-empty,
non-exit `user_input` (`src/api_call.py` lines 196-325). -/
def run_chat_loop_round (env : ChatEnv) (oracle : Nat → Option (List StreamEvent))
    (hist0 : List Message) (user_input : String) : ChatRoundResult :=
  let hist1 := appendPlain "user" user_input hist0
  match oracle 0 with
  | none =>
    -- APIError on the first create call: `messages.pop()` then `continue`.
    { history := hist1.dropLast, buffer := "", status := .apiErrorRolledBack }
  | some events1 =>
    let scanned := chatScan chatScanInit events1
    let scan := scanned.1
    let rest := scanned.2
    match scan.toolName with
    | none =>
      -- No tool call: the remainder of the same stream is the final answer.
      let current := concatContents rest
      { history := appendPlain "assistant" current hist1,
        buffer := scan.dangling ++ current, status := .completed }
    | some name =>
      match Json.parse scan.toolArgs with
      | none =>
        -- json.loads raises; the generic handler prints and continues.
        { history := hist1, buffer := "", status := .abortedException "JSONDecodeError" }
      | some jargs =>
        -- Only `search_web` is dispatched; any other name leaves `result`
        -- unbound, raising NameError at the later `str(result)`.
        let callRes : Option (PyResult String) :=
          if name = "search_web" then some (env.searchWeb jargs) else none
        match callRes with
        | some (.exn m) =>
          { history := hist1, buffer := "", status := .abortedException m }
        | some (.ok r) =>
          let histA :=
            append_to_chat_history "assistant" "" hist1 scan.toolId true (some name)
              (Json.dumps jargs)
          let histB := append_to_chat_history "tool" r histA scan.toolId false none ""
          let histC :=
            appendPlain "user" "Answer the question based on the above tool result." histB
          match oracle 1 with
          | none =>
            -- APIError from the second create call reaches the generic
            -- handler: no pop, round abandoned.
            { history := histC, buffer := "", status := .abortedException "APIError" }
          | some events2 =>
            let current := concatContents events2
            { history := appendPlain "assistant" current histC,
              buffer := scan.dangling ++ current, status := .completed }
        | none =>
          let histA :=
            append_to_chat_history "assistant" "" hist1 scan.toolId true (some name)
              (Json.dumps jargs)
          { history := histA, buffer := "",
            status := .abortedException "NameError: name result is not defined" }

/-!
## Shared helper definitions and lemmas
-/

/-- Number of tool-dispatching rounds in a submission trace. -/
def countDispatch : List SubmissionRecord → Nat
  | [] => 0
  | s :: rest => (match s.outcome with | .dispatched => 1 | _ => 0) + countDispatch rest

/-- Concatenation of a list of strings. -/
def joinAll (parts : List String) : String :=
  parts.foldr (fun a b => a ++ b) ""

theorem agentArgs_fold (parts : List String) (acc : AgentAccum) :
    (parts.map (fun p => toolEvent none none p)).foldl agentStep acc
      = { acc with toolArgs := acc.toolArgs ++ joinAll parts } := by
  induction parts generalizing acc with
  | nil => simp [joinAll, String.append_empty]
  | cons p ps ih =>
    have h1 : agentStep acc (toolEvent none none p)
        = { acc with toolArgs := acc.toolArgs ++ p } := rfl
    rw [List.map_cons, List.foldl_cons, h1, ih]
    simp [joinAll, String.append_assoc]

theorem chatArgs_fold (parts : List String) (st : ChatScan) :
    (parts.map (fun p => toolEvent none none p)).foldl chatToolStep st
      = { st with toolArgs := st.toolArgs ++ joinAll parts } := by
  induction parts generalizing st with
  | nil => simp [joinAll, String.append_empty]
  | cons p ps ih =>
    have h1 : chatToolStep st (toolEvent none none p)
        = { st with toolArgs := st.toolArgs ++ p } := rfl
    rw [List.map_cons, List.foldl_cons, h1, ih]
    simp [joinAll, String.append_assoc]

theorem chatScan_no_content (es : List StreamEvent) (h : ∀ e ∈ es, e.content = none) :
    ∀ st, chatScan st es = (es.foldl chatToolStep st, []) := by
  induction es with
  | nil => intro st; rfl
  | cons e rest ih =>
    intro st
    have he : e.content = none := h e (by simp)
    have hr : ∀ f ∈ rest, f.content = none := fun f hf => h f (by simp [hf])
    simp only [chatScan, he, List.foldl_cons]
    exact ih hr (chatToolStep st e)

theorem chatScan_break (pre : List StreamEvent) (e : StreamEvent) (c : String)
    (tail : List StreamEvent) (hpre : ∀ f ∈ pre, f.content = none)
    (he : e.content = some c) :
    ∀ st, chatScan st (pre ++ e :: tail)
      = ({ chatToolStep (pre.foldl chatToolStep st) e with dangling := c }, tail) := by
  induction pre with
  | nil =>
    intro st
    simp only [List.nil_append, chatScan, he, List.foldl_nil]
  | cons f fs ih =>
    intro st
    have hf : f.content = none := hpre f (by simp)
    have hfs : ∀ g ∈ fs, g.content = none := fun g hg => hpre g (by simp [hg])
    simp only [List.cons_append, chatScan, hf, List.foldl_cons]
    exact ih hfs (chatToolStep st f)

theorem listIsPrefixOf_self_append (l r : List Char) : listIsPrefixOf l (l ++ r) = true := by
  induction l with
  | nil => rfl
  | cons a as ih => simp [listIsPrefixOf, ih]

theorem pyStartsWith_self (p rest : String) : pyStartsWith (p ++ rest) p = true := by
  have h : (p ++ rest).data = p.data ++ rest.data := String.data_append p rest
  simp [pyStartsWith, h, listIsPrefixOf_self_append]

/-- Concrete sheets environment whose collaborators all succeed. -/
def envOk : SheetsEnv :=
  { readerPresent := true, connectionFinderPresent := true,
    listSheets := .ok "LISTED", analyzeHeaders := fun _ => .ok "HEADERS",
    analyzeColumn := fun _ _ => .ok "COLUMN", sampleData := fun _ _ => .ok "SAMPLE",
    findConnections := .ok "CONNECTIONS", assessQuality := fun _ => .ok "QUALITY",
    generateSummary := fun _ => .ok "SUMMARY" }

/-- Concrete chat environment whose web search succeeds. -/
def cenvOk : ChatEnv :=
  { searchWeb := fun _ => .ok "WEBRESULT" }

/-- A user prompt collaborator that always answers with the empty string. -/
def fbEmpty : String → String := fun _ => ""

/-- Claim C5: for every fragment sequence in which the tool name arrives
intact in a single fragment (together with an initial argument substring) and
the JSON argument string is split arbitrarily across N subsequent fragments,
both accumulators (the stream loop of `run_agent_turn` and the tool-scan loop
of `run_chat_loop`) reconstruct exactly the same state — same name, same id,
same argument buffer — as in the unsplit single-argument-fragment case, and
hence `json.loads` yields the same parsed arguments (split-invariance). -/
theorem split_invariance (n : String) (idv : Option String) (a0 : String)
    (parts : List String) :
    agentAccumulate
        (toolEvent (some n) idv a0 :: parts.map (fun p => toolEvent none none p))
      = agentAccumulate
          [toolEvent (some n) idv a0, toolEvent none none (joinAll parts)]
    ∧ chatScan chatScanInit
        (toolEvent (some n) idv a0 :: parts.map (fun p => toolEvent none none p))
      = chatScan chatScanInit
          [toolEvent (some n) idv a0, toolEvent none none (joinAll parts)]
    ∧ Json.parse (agentAccumulate
        (toolEvent (some n) idv a0 :: parts.map (fun p => toolEvent none none p))).toolArgs
      = Json.parse (agentAccumulate
          [toolEvent (some n) idv a0, toolEvent none none (joinAll parts)]).toolArgs := by
  have hagent :
      agentAccumulate
          (toolEvent (some n) idv a0 :: parts.map (fun p => toolEvent none none p))
        = agentAccumulate
            [toolEvent (some n) idv a0, toolEvent none none (joinAll parts)] := by
    show (parts.map (fun p => toolEvent none none p)).foldl agentStep
        (agentStep agentInit (toolEvent (some n) idv a0)) = _
    rw [agentArgs_fold]
    rfl
  have hchat :
      chatScan chatScanInit
          (toolEvent (some n) idv a0 :: parts.map (fun p => toolEvent none none p))
        = chatScan chatScanInit
            [toolEvent (some n) idv a0, toolEvent none none (joinAll parts)] := by
    have hnone : ∀ e ∈ toolEvent (some n) idv a0 ::
        parts.map (fun p => toolEvent none none p), e.content = none := by
      intro e hmem
      rcases List.mem_cons.mp hmem with h | h
      · rw [h]; rfl
      · rcases List.mem_map.mp h with ⟨p, _, hp⟩
        rw [← hp]; rfl
    have hnone2 : ∀ e ∈ [toolEvent (some n) idv a0,
        toolEvent none none (joinAll parts)], e.content = none := by
      intro e hmem
      rcases List.mem_cons.mp hmem with h | h
      · rw [h]; rfl
      · rcases List.mem_cons.mp h with h2 | h2
        · rw [h2]; rfl
        · exact absurd h2 (List.not_mem_nil e)
    rw [chatScan_no_content _ hnone, chatScan_no_content _ hnone2]
    rw [List.foldl_cons, chatArgs_fold]
    rfl
  exact ⟨hagent, hchat, by rw [hagent]⟩

/-- Claim C7: with the sheets context initialised, a tool handler that raises
is caught at the `execute_sheets_tool` boundary and converted to the textual
result `"Error executing <name>: <message>"` instead of propagating — so a
failure local to one tool invocation never aborts the session — and a tool
name outside the registered set yields the textual result
`"Error: Unknown tool: <name>"`. -/
theorem tool_errors_are_textual :
    (∀ (env : SheetsEnv) (name : String) (kwargs : Json) (m : String),
        env.readerPresent = true →
        dispatchSheetsTool env name kwargs = .exn m →
        execute_sheets_tool env name kwargs = "Error executing " ++ name ++ ": " ++ m)
    ∧ (∀ (env : SheetsEnv) (name : String) (kwargs : Json),
        env.readerPresent = true →
        name ∉ ["list_sheets", "analyze_headers", "analyze_column", "sample_data",
                "find_connections", "assess_quality", "generate_summary",
                "request_user_feedback"] →
        execute_sheets_tool env name kwargs = "Error: Unknown tool: " ++ name) := by
  constructor
  · intro env name kwargs m hr hd
    simp [execute_sheets_tool, hr, hd]
  · intro env name kwargs hr hmem
    simp only [List.mem_cons, List.not_mem_nil, or_false, not_or] at hmem
    obtain ⟨h1, h2, h3, h4, h5, h6, h7, h8⟩ := hmem
    simp [execute_sheets_tool, dispatchSheetsTool, hr, h1, h2, h3, h4, h5, h6, h7, h8]

/-- Environment whose header analyzer raises, for exercising the
exception-to-text boundary. -/
def envBoom : SheetsEnv :=
  { envOk with analyzeHeaders := fun _ => .exn "boom" }

/-- Witness for C7: a raising handler and an unknown name, both evaluated
concretely. -/
theorem tool_errors_are_textual_witness :
    execute_sheets_tool envBoom "analyze_headers"
        (Json.obj [("sheet_name", Json.str "Sales")])
      = "Error executing analyze_headers: boom"
    ∧ execute_sheets_tool envBoom "frobnicate" (Json.obj [])
      = "Error: Unknown tool: frobnicate" := by
  constructor
  · exact tool_errors_are_textual.1 envBoom "analyze_headers"
      (Json.obj [("sheet_name", Json.str "Sales")]) "boom" rfl rfl
  · exact tool_errors_are_textual.2 envBoom "frobnicate" (Json.obj []) rfl (by decide)

/-- Counterexample to claim C9: the claim asserts that appending a `tool`
message whose `tool_call_id` is not introduced by an immediately preceding
assistant tool-call message is rejected by the log construction.
`append_to_chat_history` has no rejection path: here a tool message keyed
`"call_x"` is appended directly after a plain user message and the extended
log is returned. -/
theorem append_accepts_orphan_tool_message :
    append_to_chat_history "tool" "result"
        [{ role := "user", content := "hi", tool_call_id := none, tool_calls := none }]
        (some "call_x") false none ""
      = [{ role := "user", content := "hi", tool_call_id := none, tool_calls := none },
         { role := "tool", content := "result", tool_call_id := some "call_x",
           tool_calls := none }] := rfl

/-- Claim C9 (amended): `append_to_chat_history` validates nothing — every
call appends exactly one message, whatever its fields.  The invariant of the
claim is instead maintained by the loop call sites: a dispatching round of
`run_agent_turn` appends an assistant message with empty content carrying the
`tool_calls` record, immediately followed by the tool message whose
`tool_call_id` equals that record's id. -/
theorem append_unchecked_and_call_sites_pair :
    (∀ (role content : String) (hist : List Message) (tcid : Option String)
        (tid : Bool) (tn : Option String) (ta : String),
        (append_to_chat_history role content hist tcid tid tn ta).length
          = hist.length + 1)
    ∧ (∀ (env : SheetsEnv) (fb : String → String) (events : List StreamEvent)
        (hist : List Message) (name : String),
        (agentAccumulate events).toolName = some name →
        ∃ (tc : ToolCallRecord) (a t : Message),
          agentRound env fb events hist = .dispatched (hist ++ [a, t])
          ∧ a.role = "assistant" ∧ a.content = "" ∧ a.tool_calls = some tc
          ∧ t.role = "tool" ∧ t.tool_call_id = tc.id) := by
  constructor
  · intro role content hist tcid tid tn ta
    unfold append_to_chat_history
    cases tid
    · cases tcid <;> simp
    · simp
  · intro env fb events hist name hname
    refine
      ⟨{ id := (agentAccumulate events).toolId, name := some name,
         arguments := Json.dumps (agentToolKwargs (agentAccumulate events).toolArgs) },
       { role := "assistant", content := "", tool_call_id := none,
         tool_calls := some
           { id := (agentAccumulate events).toolId, name := some name,
             arguments := Json.dumps (agentToolKwargs (agentAccumulate events).toolArgs) } },
       { role := "tool",
         content :=
           (if pyStartsWith
                 (execute_sheets_tool env name
                   (agentToolKwargs (agentAccumulate events).toolArgs))
                 feedbackMarker then
              "User response: " ++
                fb (pyStrip (pyReplace
                  (execute_sheets_tool env name
                    (agentToolKwargs (agentAccumulate events).toolArgs))
                  feedbackMarker ""))
            else
              execute_sheets_tool env name
                (agentToolKwargs (agentAccumulate events).toolArgs)),
         tool_call_id := (agentAccumulate events).toolId, tool_calls := none },
       ?_, rfl, rfl, rfl, rfl, rfl⟩
    simp only [agentRound, hname]
    unfold append_to_chat_history
    cases htid : (agentAccumulate events).toolId <;>
      simp [htid, List.append_assoc]

/-- Witness for the amended C9: one concrete unconditional append, and one
concrete dispatching round whose appended pair satisfies the invariant. -/
theorem append_unchecked_and_call_sites_pair_witness :
    (append_to_chat_history "user" "hello" [] none false none "").length = 1
    ∧ (∃ (tc : ToolCallRecord) (a t : Message),
        agentRound envOk fbEmpty [toolEvent (some "list_sheets") (some "id1") ""] []
          = .dispatched ([] ++ [a, t])
        ∧ a.role = "assistant" ∧ a.content = "" ∧ a.tool_calls = some tc
        ∧ t.role = "tool" ∧ t.tool_call_id = tc.id) :=
  ⟨append_unchecked_and_call_sites_pair.1 "user" "hello" [] none false none "",
   append_unchecked_and_call_sites_pair.2 envOk fbEmpty
     [toolEvent (some "list_sheets") (some "id1") ""] [] "list_sheets" rfl⟩

/-- Counterexample to claim C4: the claim requires every transport failure
during submission to pop the most recently appended user message.  In
`run_agent_turn` the `APIError` handler (`src/sheets_agent.py` lines 344-346)
returns the chat history unchanged: after a failing first submission the user
message is still in the log (the claim would require it removed). -/
theorem agent_api_error_keeps_user_message :
    run_agent_turn envOk (fun _ => none) fbEmpty
        [{ role := "user", content := "analyze this", tool_call_id := none,
           tool_calls := none }] 3
      = { history := [{ role := "user", content := "analyze this",
                        tool_call_id := none, tool_calls := none }],
          toolCallCount := 0,
          submissions := [{ toolsEnabled := true, outcome := .apiError }] } := rfl

/-- Claim C4 (amended): in `run_chat_loop` an `APIError` on the initial
submission pops the just-appended user message — the log is restored to its
pre-round state — and the turn is abandoned; in `run_agent_turn` an
`APIError` also abandons the turn without resuming mid-round, but performs no
rollback: the log is returned exactly as it was. -/
theorem transport_error_rollback :
    (∀ (cenv : ChatEnv) (oracle : Nat → Option (List StreamEvent))
        (hist0 : List Message) (uin : String),
        oracle 0 = none →
        run_chat_loop_round cenv oracle hist0 uin
          = { history := hist0, buffer := "", status := .apiErrorRolledBack })
    ∧ (∀ (env : SheetsEnv) (oracle : Nat → Option (List StreamEvent))
        (fb : String → String) (hist : List Message) (m : Nat),
        oracle 0 = none → 0 < m →
        run_agent_turn env oracle fb hist m
          = { history := hist, toolCallCount := 0,
              submissions := [{ toolsEnabled := true, outcome := .apiError }] }) := by
  constructor
  · intro cenv oracle hist0 uin h0
    simp [run_chat_loop_round, h0, appendPlain, append_to_chat_history,
      List.dropLast_concat]
  · intro env oracle fb hist m h0 hm
    obtain ⟨k, rfl⟩ : ∃ k, m = k + 1 := ⟨m - 1, (Nat.succ_pred_eq_of_pos hm).symm⟩
    simp [run_agent_turn, run_agent_turn_go, h0]

/-- Witness for the amended C4: both transport-failure behaviours at concrete
inputs. -/
theorem transport_error_rollback_witness :
    run_chat_loop_round cenvOk (fun _ => none)
        [{ role := "system", content := "sys", tool_call_id := none,
           tool_calls := none }] "hi"
      = { history := [{ role := "system", content := "sys", tool_call_id := none,
                        tool_calls := none }],
          buffer := "", status := .apiErrorRolledBack }
    ∧ run_agent_turn envOk (fun _ => none) fbEmpty [] 5
      = { history := [], toolCallCount := 0,
          submissions := [{ toolsEnabled := true, outcome := .apiError }] } :=
  ⟨transport_error_rollback.1 cenvOk (fun _ => none)
      [{ role := "system", content := "sys", tool_call_id := none,
         tool_calls := none }] "hi" rfl,
   transport_error_rollback.2 envOk (fun _ => none) fbEmpty [] 5 rfl (by decide)⟩

/-- Claim C10: in `run_chat_loop`, when a round's stream has no tool-call
fragments and begins with a content fragment, the tool-scan pass consumes that
first fragment as `dangling_stream_content`; the assistant message appended to
the log is the concatenation of the remaining content fragments only, while
the display buffer carries the first fragment prepended — the first fragment
never becomes part of any logged message. -/
theorem first_content_fragment_only_displayed
    (cenv : ChatEnv) (oracle : Nat → Option (List StreamEvent))
    (hist0 : List Message) (uin c : String) (tail : List StreamEvent)
    (h0 : oracle 0 = some (contentEvent c :: tail))
    (_htail : ∀ e ∈ tail, e.toolCalls = none) :
    run_chat_loop_round cenv oracle hist0 uin
      = { history := appendPlain "assistant" (concatContents tail)
            (appendPlain "user" uin hist0),
          buffer := c ++ concatContents tail,
          status := .completed } := by
  simp [run_chat_loop_round, h0, chatScan, chatToolStep, contentEvent, chatScanInit]

/-- Witness for C10: a concrete three-fragment content stream; the logged
assistant message drops the first fragment, the display buffer keeps it. -/
theorem first_content_fragment_only_displayed_witness :
    run_chat_loop_round cenvOk
        (fun _ => some [contentEvent "Hello ", contentEvent "wor", contentEvent "ld!"])
        [] "hi"
      = { history := [{ role := "user", content := "hi", tool_call_id := none,
                        tool_calls := none },
                      { role := "assistant", content := "world!",
                        tool_call_id := none, tool_calls := none }],
          buffer := "Hello world!",
          status := .completed } := by
  have h := first_content_fragment_only_displayed cenvOk
    (fun _ => some [contentEvent "Hello ", contentEvent "wor", contentEvent "ld!"])
    [] "hi" "Hello " [contentEvent "wor", contentEvent "ld!"] rfl (by decide)
  exact h

/-- Claim C2: in a `run_chat_loop` round whose stream carries tool-call
fragments that establish `search_web` followed by a content fragment, the
first content fragment is captured as `dangling_stream_content` and prepended
to the display buffer of the follow-up round that streams the answer after the
tool result — it is not discarded. -/
theorem dangling_content_preserved
    (cenv : ChatEnv) (oracle : Nat → Option (List StreamEvent))
    (hist0 : List Message) (uin c : String)
    (pre tail events2 : List StreamEvent) (e : StreamEvent) (jargs : Json) (r : String)
    (h0 : oracle 0 = some (pre ++ e :: tail))
    (h1 : oracle 1 = some events2)
    (hpre : ∀ f ∈ pre, f.content = none)
    (he : e.content = some c)
    (hname : (chatToolStep (pre.foldl chatToolStep chatScanInit) e).toolName
      = some "search_web")
    (hparse : Json.parse (chatToolStep (pre.foldl chatToolStep chatScanInit) e).toolArgs
      = some jargs)
    (hsw : cenv.searchWeb jargs = .ok r) :
    (run_chat_loop_round cenv oracle hist0 uin).buffer = c ++ concatContents events2
    ∧ (run_chat_loop_round cenv oracle hist0 uin).status = .completed := by
  have hsc := chatScan_break pre e c tail hpre he chatScanInit
  simp [run_chat_loop_round, h0, hsc, h1, hname, hparse, hsw]

/-- Witness for C2 (the spec scenario): a `search_web` tool round whose stream
carries a trailing content fragment; that fragment heads the follow-up
round's display buffer. -/
theorem dangling_content_preserved_witness :
    (run_chat_loop_round cenvOk
        (fun k => if k = 0 then
            some [toolEvent (some "search_web") (some "id1")
                    "\x7b\"topic\": \"weather\"\x7d",
                  contentEvent "Let me check. "]
          else some [contentEvent "It is sunny."])
        [] "weather?").buffer
      = "Let me check. " ++ concatContents [contentEvent "It is sunny."]
    ∧ (run_chat_loop_round cenvOk
        (fun k => if k = 0 then
            some [toolEvent (some "search_web") (some "id1")
                    "\x7b\"topic\": \"weather\"\x7d",
                  contentEvent "Let me check. "]
          else some [contentEvent "It is sunny."])
        [] "weather?").status = .completed := by
  have h := dangling_content_preserved cenvOk
    (fun k => if k = 0 then
        some [toolEvent (some "search_web") (some "id1")
                "\x7b\"topic\": \"weather\"\x7d",
              contentEvent "Let me check. "]
      else some [contentEvent "It is sunny."])
    [] "weather?" "Let me check. "
    [toolEvent (some "search_web") (some "id1") "\x7b\"topic\": \"weather\"\x7d"]
    [] [contentEvent "It is sunny."] (contentEvent "Let me check. ")
    (Json.obj [("topic", Json.str "weather")]) "WEBRESULT"
    rfl rfl (by decide) rfl rfl rfl rfl
  exact h

theorem run_agent_turn_go_trace (env : SheetsEnv)
    (oracle : Nat → Option (List StreamEvent)) (fb : String → String) :
    ∀ (fuel subIdx count : Nat) (hist : List Message)
      (trace : List SubmissionRecord),
    ∃ d : List SubmissionRecord,
      (run_agent_turn_go env oracle fb fuel subIdx count hist trace).2.2 = trace ++ d
      ∧ d.length ≤ fuel
      ∧ (run_agent_turn_go env oracle fb fuel subIdx count hist trace).2.1
        = count + countDispatch d := by
  intro fuel
  induction fuel with
  | zero =>
    intro subIdx count hist trace
    exact ⟨[], by simp [run_agent_turn_go], by simp, by simp [run_agent_turn_go, countDispatch]⟩
  | succ f ih =>
    intro subIdx count hist trace
    cases h : oracle subIdx with
    | none =>
      refine ⟨[{ toolsEnabled := true, outcome := .apiError }], ?_, by simp, ?_⟩
      · simp [run_agent_turn_go, h]
      · simp [run_agent_turn_go, h, countDispatch]
    | some events =>
      cases hr : agentRound env fb events hist with
      | finalAnswer h1 =>
        refine ⟨[{ toolsEnabled := true, outcome := .finalAnswer }], ?_, by simp, ?_⟩
        · simp [run_agent_turn_go, h, hr]
        · simp [run_agent_turn_go, h, hr, countDispatch]
      | dispatched h2 =>
        obtain ⟨d, hd1, hd2, hd3⟩ :=
          ih (subIdx + 1) (count + 1) h2 (trace ++ [{ toolsEnabled := true, outcome := .dispatched }])
        refine ⟨{ toolsEnabled := true, outcome := .dispatched } :: d, ?_, ?_, ?_⟩
        · simp only [run_agent_turn_go, h, hr, hd1]
          simp [List.append_assoc]
        · simpa using Nat.succ_le_succ hd2
        · simp only [run_agent_turn_go, h, hr, hd3, countDispatch]
          omega

/-- Claim C6: in `run_agent_turn`, `tool_call_count` equals exactly the
number of completed tool-dispatching rounds of the turn (it increases by 1 on
each dispatching round and by nothing on any other round), and for every
oracle — in particular one that never yields a natural final answer — the
loop performs at most `max_tool_calls + 1` Submitting transitions before
returning (in fact at most `max_tool_calls`). -/
theorem iteration_count_tracks_dispatches
    (env : SheetsEnv) (oracle : Nat → Option (List StreamEvent))
    (fb : String → String) (hist : List Message) (m : Nat) :
    (run_agent_turn env oracle fb hist m).toolCallCount
      = countDispatch (run_agent_turn env oracle fb hist m).submissions
    ∧ (run_agent_turn env oracle fb hist m).submissions.length ≤ m + 1 := by
  obtain ⟨d, hd1, hd2, hd3⟩ := run_agent_turn_go_trace env oracle fb m 0 0 hist []
  constructor
  · show (run_agent_turn_go env oracle fb m 0 0 hist []).2.1
      = countDispatch (run_agent_turn_go env oracle fb m 0 0 hist []).2.2
    rw [hd1, hd3]
    simp
  · show (run_agent_turn_go env oracle fb m 0 0 hist []).2.2.length ≤ m + 1
    rw [hd1]
    simp
    omega

/-- A transport oracle whose every stream is a single `list_sheets` tool call
with empty JSON arguments — a session that never yields a natural final
answer. -/
def oracleList : Nat → Option (List StreamEvent) :=
  fun _ => some [toolEvent (some "list_sheets") (some "id1") "\x7b\x7d"]

/-- Counterexample to claim C1: with `max_tool_calls = 2` and every round
returning a tool call, the claim requires a third submission issued with
tools disabled and treated as Finished.  The code makes exactly two
submissions, both with the tool manifest attached, and terminates with no
further submission: no tools-disabled forced-answer call exists. -/
theorem budget_exhaustion_makes_no_final_submission :
    (run_agent_turn envOk oracleList fbEmpty [] 2).submissions
      = [{ toolsEnabled := true, outcome := .dispatched },
         { toolsEnabled := true, outcome := .dispatched }] := rfl

theorem agentRound_dispatched_of_name (env : SheetsEnv) (fb : String → String)
    (evs : List StreamEvent) (hist : List Message) (nm : String)
    (hnm : (agentAccumulate evs).toolName = some nm) :
    ∃ h2, agentRound env fb evs hist = .dispatched h2 := by
  simp only [agentRound, hnm]
  exact ⟨_, rfl⟩

theorem budget_go_all_dispatched (env : SheetsEnv)
    (oracle : Nat → Option (List StreamEvent)) (fb : String → String) :
    ∀ (fuel subIdx count : Nat) (hist : List Message)
      (trace : List SubmissionRecord),
    (∀ k, k < fuel → ∃ evs, oracle (subIdx + k) = some evs
      ∧ ((agentAccumulate evs).toolName).isSome = true) →
    (run_agent_turn_go env oracle fb fuel subIdx count hist trace).2
      = (count + fuel,
         trace ++ List.replicate fuel { toolsEnabled := true, outcome := .dispatched }) := by
  intro fuel
  induction fuel with
  | zero =>
    intro subIdx count hist trace _
    simp [run_agent_turn_go]
  | succ f ih =>
    intro subIdx count hist trace H
    obtain ⟨evs, hev, hsome⟩ := H 0 (Nat.succ_pos f)
    rw [Nat.add_zero] at hev
    obtain ⟨nm, hnm⟩ := Option.isSome_iff_exists.mp hsome
    obtain ⟨h2, hdisp⟩ := agentRound_dispatched_of_name env fb evs hist nm hnm
    have H2 : ∀ k, k < f → ∃ e2, oracle (subIdx + 1 + k) = some e2
        ∧ ((agentAccumulate e2).toolName).isSome = true := by
      intro k hk
      have := H (k + 1) (by omega)
      rwa [show subIdx + (k + 1) = subIdx + 1 + k by omega] at this
    simp only [run_agent_turn_go, hev, hdisp]
    rw [ih _ _ _ _ H2]
    rw [Prod.ext_iff]
    constructor
    · show count + 1 + f = count + (f + 1)
      omega
    · show trace ++ [_] ++ _ = _
      simp [List.replicate_succ, List.append_assoc]

/-- Claim C1 (amended): when every round up to the budget returns a tool
call, `run_agent_turn` performs exactly `max_tool_calls` submissions, every
one of them with tools enabled, and then terminates immediately: the
budget-exhaustion path issues no additional tools-disabled submission and no
forced textual answer. -/
theorem budget_exhaustion_terminates_without_extra_submission
    (env : SheetsEnv) (oracle : Nat → Option (List StreamEvent))
    (fb : String → String) (hist : List Message) (m : Nat)
    (H : ∀ k, k < m → ∃ evs, oracle k = some evs
      ∧ ((agentAccumulate evs).toolName).isSome = true) :
    (run_agent_turn env oracle fb hist m).submissions
      = List.replicate m { toolsEnabled := true, outcome := .dispatched }
    ∧ (run_agent_turn env oracle fb hist m).toolCallCount = m := by
  have H0 : ∀ k, k < m → ∃ evs, oracle (0 + k) = some evs
      ∧ ((agentAccumulate evs).toolName).isSome = true := by
    intro k hk
    simpa [Nat.zero_add] using H k hk
  have hgo := budget_go_all_dispatched env oracle fb m 0 0 hist [] H0
  constructor
  · show (run_agent_turn_go env oracle fb m 0 0 hist []).2.2 = _
    rw [hgo]
    simp
  · show (run_agent_turn_go env oracle fb m 0 0 hist []).2.1 = m
    rw [hgo]
    simp

/-- Witness for the amended C1: the two-round always-tool-call session
evaluated concretely. -/
theorem budget_exhaustion_terminates_witness :
    (run_agent_turn envOk oracleList fbEmpty [] 2).submissions
      = List.replicate 2 { toolsEnabled := true, outcome := .dispatched }
    ∧ (run_agent_turn envOk oracleList fbEmpty [] 2).toolCallCount = 2 :=
  budget_exhaustion_terminates_without_extra_submission envOk oracleList fbEmpty [] 2
    (fun _ _ => ⟨[toolEvent (some "list_sheets") (some "id1") "\x7b\x7d"], rfl, rfl⟩)

/-- Transport oracle whose first stream is a `list_sheets` call with a
malformed (unterminated) JSON argument buffer, followed by empty streams. -/
def oracleBadJson : Nat → Option (List StreamEvent) :=
  fun k =>
    if k = 0 then some [toolEvent (some "list_sheets") (some "id7") "\x7b\"topic\": "]
    else some []

/-- Counterexample to claim C3: the claim requires a malformed argument
buffer to produce an AccumulationError, not invoke the tool, and terminate
the session.  In `run_agent_turn` the `json.JSONDecodeError` is swallowed
(`src/sheets_agent.py` lines 298-301): the kwargs silently become `{}`, the
tool IS invoked — its successful result `"LISTED"` is appended to the log —
no error is surfaced, and the loop continues to the next submission. -/
theorem malformed_json_tool_still_invoked :
    Json.parse "\x7b\"topic\": " = none
    ∧ run_agent_turn envOk oracleBadJson fbEmpty [] 5
      = { history :=
            [{ role := "assistant", content := "", tool_call_id := none,
               tool_calls := some
                 { id := some "id7", name := some "list_sheets",
                   arguments := "\x7b\x7d" } },
             { role := "tool", content := "LISTED", tool_call_id := some "id7",
               tool_calls := none }],
          toolCallCount := 1,
          submissions := [{ toolsEnabled := true, outcome := .dispatched },
                          { toolsEnabled := true, outcome := .finalAnswer }] } :=
  ⟨rfl, rfl⟩

/-- Claim C3 (amended): the two loops diverge on a malformed argument buffer.
In `run_chat_loop`, `json.loads` raises and the round is abandoned by the
generic exception handler — the tool is not invoked, nothing is retried, and
the session continues with the next user turn (the appended user message
stays in the log).  In `run_agent_turn`, the parse failure is silently
replaced by empty kwargs and the tool is invoked anyway; no error is produced
and the round completes as a normal dispatch. -/
theorem malformed_json_behaviour :
    (∀ (cenv : ChatEnv) (oracle : Nat → Option (List StreamEvent))
        (hist0 : List Message) (uin : String) (events1 : List StreamEvent)
        (name : String),
        oracle 0 = some events1 →
        (chatScan chatScanInit events1).1.toolName = some name →
        Json.parse (chatScan chatScanInit events1).1.toolArgs = none →
        run_chat_loop_round cenv oracle hist0 uin
          = { history := appendPlain "user" uin hist0, buffer := "",
              status := .abortedException "JSONDecodeError" })
    ∧ (∀ (env : SheetsEnv) (fb : String → String) (events : List StreamEvent)
        (hist : List Message) (name : String),
        (agentAccumulate events).toolName = some name →
        Json.parse (agentAccumulate events).toolArgs = none →
        (agentAccumulate events).toolArgs ≠ "" →
        agentRound env fb events hist
          = .dispatched
              (append_to_chat_history "tool"
                (if pyStartsWith (execute_sheets_tool env name (Json.obj []))
                      feedbackMarker then
                   "User response: " ++
                     fb (pyStrip (pyReplace
                       (execute_sheets_tool env name (Json.obj []))
                       feedbackMarker ""))
                 else execute_sheets_tool env name (Json.obj []))
                (append_to_chat_history "assistant" "" hist
                  (agentAccumulate events).toolId true (some name)
                  (Json.dumps (Json.obj [])))
                (agentAccumulate events).toolId false none "")) := by
  constructor
  · intro cenv oracle hist0 uin events1 name h0 hname hparse
    simp [run_chat_loop_round, h0, hname, hparse]
  · intro env fb events hist name hname hparse hne
    have hk : agentToolKwargs (agentAccumulate events).toolArgs = Json.obj [] := by
      simp [agentToolKwargs, hne, hparse]
    simp only [agentRound, hname, hk]

/-- Witness for the amended C3: the unterminated buffer of the spec scenario,
run through both loops at concrete inputs. -/
theorem malformed_json_behaviour_witness :
    run_chat_loop_round cenvOk
        (fun _ => some [toolEvent (some "search_web") (some "c9") "\x7b\"topic\": "])
        [] "hi"
      = { history := [{ role := "user", content := "hi", tool_call_id := none,
                        tool_calls := none }],
          buffer := "", status := .abortedException "JSONDecodeError" }
    ∧ agentRound envOk fbEmpty
        [toolEvent (some "list_sheets") (some "id7") "\x7b\"topic\": "] []
      = .dispatched
          [{ role := "assistant", content := "", tool_call_id := none,
             tool_calls := some
               { id := some "id7", name := some "list_sheets",
                 arguments := "\x7b\x7d" } },
           { role := "tool", content := "LISTED", tool_call_id := some "id7",
             tool_calls := none }] := by
  constructor
  · exact malformed_json_behaviour.1 cenvOk
      (fun _ => some [toolEvent (some "search_web") (some "c9") "\x7b\"topic\": "])
      [] "hi" [toolEvent (some "search_web") (some "c9") "\x7b\"topic\": "]
      "search_web" rfl rfl rfl
  · exact malformed_json_behaviour.2 envOk fbEmpty
      [toolEvent (some "list_sheets") (some "id7") "\x7b\"topic\": "] []
      "list_sheets" rfl rfl (by decide)

/-- Claim C8: a `request_user_feedback` dispatch executes no business logic —
for every environment it returns the marker followed by the question — and
the loop intercepts the marker, obtains the external answer, appends a tool
message containing `"User response: " ++ answer` keyed by the pending call
id (right after the assistant tool-call message), and proceeds to the next
Submitting state having charged exactly the one iteration counted for the
round. -/
theorem feedback_tool_suspends_and_resumes
    (env : SheetsEnv) (fb : String → String) (events : List StreamEvent)
    (hist : List Message) (q : String)
    (oracle : Nat → Option (List StreamEvent)) (fuel subIdx count : Nat)
    (trace : List SubmissionRecord)
    (hr : env.readerPresent = true)
    (hname : (agentAccumulate events).toolName = some "request_user_feedback")
    (hq : kwGet (agentToolKwargs (agentAccumulate events).toolArgs) "question"
      = some (.str q))
    (hqne : q ≠ "")
    (hor : oracle subIdx = some events) :
    execute_sheets_tool env "request_user_feedback"
        (agentToolKwargs (agentAccumulate events).toolArgs)
      = "[USER_FEEDBACK_REQUESTED] " ++ q
    ∧ agentRound env fb events hist
      = .dispatched (hist ++
          [{ role := "assistant", content := "", tool_call_id := none,
             tool_calls := some
               { id := (agentAccumulate events).toolId,
                 name := some "request_user_feedback",
                 arguments := Json.dumps
                   (agentToolKwargs (agentAccumulate events).toolArgs) } },
           { role := "tool",
             content := "User response: " ++
               fb (pyStrip (pyReplace ("[USER_FEEDBACK_REQUESTED] " ++ q)
                 feedbackMarker "")),
             tool_call_id := (agentAccumulate events).toolId,
             tool_calls := none }])
    ∧ run_agent_turn_go env oracle fb (fuel + 1) subIdx count hist trace
      = run_agent_turn_go env oracle fb fuel (subIdx + 1) (count + 1)
          (hist ++
            [{ role := "assistant", content := "", tool_call_id := none,
               tool_calls := some
                 { id := (agentAccumulate events).toolId,
                   name := some "request_user_feedback",
                   arguments := Json.dumps
                     (agentToolKwargs (agentAccumulate events).toolArgs) } },
             { role := "tool",
               content := "User response: " ++
                 fb (pyStrip (pyReplace ("[USER_FEEDBACK_REQUESTED] " ++ q)
                   feedbackMarker "")),
               tool_call_id := (agentAccumulate events).toolId,
               tool_calls := none }])
          (trace ++ [{ toolsEnabled := true, outcome := .dispatched }]) := by
  have hexec : execute_sheets_tool env "request_user_feedback"
      (agentToolKwargs (agentAccumulate events).toolArgs)
      = "[USER_FEEDBACK_REQUESTED] " ++ q := by
    simp [execute_sheets_tool, dispatchSheetsTool, hr, kwTruthy, hq, hqne,
      kwGetD, pyStr, tool_request_user_feedback, Json.truthy]
  have hm2 : feedbackMarker ++ " " = "[USER_FEEDBACK_REQUESTED] " := rfl
  have hmarker : ("[USER_FEEDBACK_REQUESTED] " ++ q)
      = feedbackMarker ++ (" " ++ q) := by
    rw [← String.append_assoc, hm2]
  have hstarts : pyStartsWith ("[USER_FEEDBACK_REQUESTED] " ++ q) feedbackMarker
      = true := by
    rw [hmarker]
    exact pyStartsWith_self feedbackMarker (" " ++ q)
  have hround : agentRound env fb events hist
      = .dispatched (hist ++
          [{ role := "assistant", content := "", tool_call_id := none,
             tool_calls := some
               { id := (agentAccumulate events).toolId,
                 name := some "request_user_feedback",
                 arguments := Json.dumps
                   (agentToolKwargs (agentAccumulate events).toolArgs) } },
           { role := "tool",
             content := "User response: " ++
               fb (pyStrip (pyReplace ("[USER_FEEDBACK_REQUESTED] " ++ q)
                 feedbackMarker "")),
             tool_call_id := (agentAccumulate events).toolId,
             tool_calls := none }]) := by
    simp only [agentRound, hname, hexec, hstarts, if_true]
    unfold append_to_chat_history
    cases htid : (agentAccumulate events).toolId <;>
      simp [htid, List.append_assoc]
  refine ⟨hexec, hround, ?_⟩
  simp only [run_agent_turn_go, hor, hround]

/-- The stream of a feedback round: one `request_user_feedback` call with its
question. -/
def evFeedback : List StreamEvent :=
  [toolEvent (some "request_user_feedback") (some "fid")
     "\x7b\"question\": \"What is this data about\"\x7d"]

/-- A user who answers every agent question the same way. -/
def fbSales : String → String := fun _ => "it is about sales"

/-- Transport oracle that always produces the feedback round. -/
def oracleFeedback : Nat → Option (List StreamEvent) :=
  fun _ => some evFeedback

/-- Witness for C8: the feedback round evaluated concretely — the marker
result, the appended pair with the user's answer, and the loop stepping to
the next submission with the count advanced by exactly one. -/
theorem feedback_tool_suspends_and_resumes_witness :
    execute_sheets_tool envOk "request_user_feedback"
        (agentToolKwargs (agentAccumulate evFeedback).toolArgs)
      = "[USER_FEEDBACK_REQUESTED] What is this data about"
    ∧ agentRound envOk fbSales evFeedback []
      = .dispatched
          [{ role := "assistant", content := "", tool_call_id := none,
             tool_calls := some
               { id := some "fid", name := some "request_user_feedback",
                 arguments := "\x7b\"question\": \"What is this data about\"\x7d" } },
           { role := "tool", content := "User response: it is about sales",
             tool_call_id := some "fid", tool_calls := none }]
    ∧ run_agent_turn_go envOk oracleFeedback fbSales 1 0 0 [] []
      = run_agent_turn_go envOk oracleFeedback fbSales 0 1 1
          [{ role := "assistant", content := "", tool_call_id := none,
             tool_calls := some
               { id := some "fid", name := some "request_user_feedback",
                 arguments := "\x7b\"question\": \"What is this data about\"\x7d" } },
           { role := "tool", content := "User response: it is about sales",
             tool_call_id := some "fid", tool_calls := none }]
          [{ toolsEnabled := true, outcome := .dispatched }] := by
  have h := feedback_tool_suspends_and_resumes envOk fbSales evFeedback []
    "What is this data about" oracleFeedback 0 0 0 [] rfl rfl rfl (by decide) rfl
  exact h
